import Mathlib

/-!
Verification of the deployment orchestration and infrastructure-generation
engine of the Arvo auto-deployment system.  The JavaScript services
(`infrastructureManager`, `deploymentService`, `repositoryAnalyzer`,
`terraformService`) are shallowly embedded as pure Lean functions:
absent or `null`/`undefined` JavaScript values become `Option`, effectful
inputs (clock, external queries, `Math.random`) become explicit parameters,
and thrown exceptions become `Except.error`.
-/

/-! ## JavaScript-semantics helpers -/

/-- Truthiness of an optional JavaScript string: `undefined`/`null` and the
empty string are falsy, every other string is truthy. -/
def jsTruthyS (o : Option String) : Bool :=
  match o with
  | none => false
  | some s => s ≠ ""

/-- JavaScript `o || d` on an optional string: the default is used when the
value is absent or falsy (empty). -/
def jsOrS (o : Option String) (d : String) : String :=
  match o with
  | none => d
  | some s => if s = "" then d else s

/-- JavaScript `p || 8080` on an optional numeric port: `undefined` and the
falsy number `0` both yield the default `8080`. -/
def jsOrPort (p : Option Nat) : Nat :=
  match p with
  | none => 8080
  | some n => if n = 0 then 8080 else n

/-- Whether `needle` is a prefix of `hay` (character lists). -/
def charsIsPrefix : List Char → List Char → Bool
  | [], _ => true
  | _ :: _, [] => false
  | a :: as, b :: bs => a == b && charsIsPrefix as bs

/-- Whether `needle` occurs as a contiguous substring of `hay`. -/
def charsContains (needle : List Char) : List Char → Bool
  | [] => needle.isEmpty
  | c :: rest => charsIsPrefix needle (c :: rest) || charsContains needle rest

/-- JavaScript `s.includes(sub)`: substring containment. -/
def jsIncludes (s sub : String) : Bool :=
  charsContains sub.toList s.toList

/-- JavaScript `s.toLowerCase()`, computed characterwise so that proofs can
evaluate it. -/
def jsToLower (s : String) : String :=
  String.mk (s.toList.map Char.toLower)

/-! ## Collaborator contracts (§6 of the specification)

`CodeAnalysis` is the record produced by `RepositoryAnalyzer.analyzeCodebase`
and `NlpAnalysis` the record produced by
`NLPProcessor.processDeploymentDescription` (the spec calls the latter
`IntentAnalysis`).  String-valued fields that the collaborators may leave
`null` are `Option String`; `dependencies` is a JavaScript object, modelled
by the list of its keys (`none` models a record where the field itself is
missing, since `determineDeploymentStrategy` guards it with `&&`). -/

structure CodeAnalysis where
  appType : Option String
  framework : Option String
  language : Option String
  port : Option Nat
  dependencies : Option (List String)
  buildCommands : List String
  startCommands : List String
  environmentVariables : List String
  databaseRequirements : List String
  dockerized : Bool
  staticFiles : Bool
deriving Repr, DecidableEq

structure NlpAnalysis where
  cloudProvider : Option String
  deploymentType : Option String
  environment : Option String
  scalingRequirements : Option String
  estimatedTraffic : Option String
  databaseNeeded : Bool
  storageNeeded : Bool
  customDomain : Bool
  https : Option Bool
  monitoring : Option Bool
  requirements : List String
deriving Repr, DecidableEq

/-! ## Strategy engine (`infrastructureManager.js`,
`InfrastructureManager.determineDeploymentStrategy` and its helpers) -/

/-- The per-type infrastructure sub-object filled in by the
`generate*Strategy` detail generators. -/
structure StrategyInfra where
  type : String
  services : List String
  estimated_cost : String
  scalability : String
deriving Repr, DecidableEq

/-- The strategy record returned by `determineDeploymentStrategy`.
`infrastructure := none` models the initial empty object `{}`, which is what
an unknown strategy type keeps (no detail generator is registered for it). -/
structure Strategy where
  type : String
  reasoning : List String
  infrastructure : Option StrategyInfra
  estimated_cost : String
  complexity : String
deriving Repr, DecidableEq

/-- Embeds `InfrastructureManager.shouldUseServerless` (infrastructureManager.js).
`serverlessFrameworks.includes(null)` is false, hence the `Option.elim`. -/
def shouldUseServerless (c : CodeAnalysis) (n : NlpAnalysis) : Bool :=
  let serverlessFrameworks := ["flask", "fastapi", "express"]
  let hasStatelessArchitecture := !(c.databaseRequirements.contains "sqlite")
  let lowComplexity :=
    match c.dependencies with
    | none => false
    | some keys => keys.length < 10
  (c.framework.elim false (fun f => serverlessFrameworks.contains f)) &&
    hasStatelessArchitecture && lowComplexity &&
    n.estimatedTraffic ≠ some "high"

/-- Embeds `InfrastructureManager.shouldUseContainer` (infrastructureManager.js). -/
def shouldUseContainer (c : CodeAnalysis) (n : NlpAnalysis) : Bool :=
  c.dockerized ||
    c.databaseRequirements.length > 0 ||
    n.scalingRequirements == some "high" ||
    (c.framework.elim false
      (fun f => ["django", "spring-boot", "laravel"].contains f))

/-- Embeds `InfrastructureManager.shouldUseKubernetes` (infrastructureManager.js). -/
def shouldUseKubernetes (c : CodeAnalysis) (n : NlpAnalysis) : Bool :=
  n.estimatedTraffic == some "high" ||
    n.scalingRequirements == some "high" ||
    c.databaseRequirements.length > 1 ||
    n.requirements.contains "high-availability"

/-- Embeds `InfrastructureManager.generateStrategyDetails` together with the five
`generate*Strategy` detail generators: the dispatch table
`this.deploymentStrategies` maps exactly the five known strategy types to a
generator; any other type finds no generator and the strategy is returned
with its initial empty `infrastructure` and default complexity. -/
def generateStrategyDetails (s : Strategy) : Strategy :=
  if s.type = "static" then
    { s with
      infrastructure := some
        { type := "cdn", services := ["s3", "cloudfront"],
          estimated_cost := "very_low", scalability := "excellent" },
      complexity := "low" }
  else if s.type = "serverless" then
    { s with
      infrastructure := some
        { type := "serverless", services := ["lambda", "api_gateway"],
          estimated_cost := "low", scalability := "auto" },
      complexity := "medium" }
  else if s.type = "container" then
    { s with
      infrastructure := some
        { type := "container", services := ["ecs", "fargate", "alb"],
          estimated_cost := "medium", scalability := "good" },
      complexity := "medium" }
  else if s.type = "vm" then
    { s with
      infrastructure := some
        { type := "vm", services := ["ec2", "elb"],
          estimated_cost := "medium", scalability := "manual" },
      complexity := "medium" }
  else if s.type = "kubernetes" then
    { s with
      infrastructure := some
        { type := "kubernetes", services := ["eks", "alb"],
          estimated_cost := "high", scalability := "excellent" },
      complexity := "high" }
  else s

/-- Embeds `InfrastructureManager.determineDeploymentStrategy`
(infrastructureManager.js): the five-priority decision chain.  Priority 1
copies `nlpAnalysis.deploymentType` verbatim when it is truthy; the
remaining rules assign the literal types `static`, `serverless`,
`container`, `kubernetes`, and the final `else` assigns the `vm` default.
With all §6 contract fields present the JavaScript body cannot throw, which
the embedding reflects by being a total function. -/
def determineDeploymentStrategy (c : CodeAnalysis) (n : NlpAnalysis) :
    Strategy :=
  let base : String × String :=
    if jsTruthyS n.deploymentType then
      let dt := n.deploymentType.getD ""
      (dt, "User requested " ++ dt ++ " deployment")
    else if c.appType == some "static" ||
        (c.staticFiles && !jsTruthyS c.appType) then
      ("static", "Static files detected - optimal for CDN deployment")
    else if shouldUseServerless c n then
      ("serverless", "Suitable for serverless architecture")
    else if c.dockerized || shouldUseContainer c n then
      ("container", "Application is containerized or suitable for containers")
    else if shouldUseKubernetes c n then
      ("kubernetes", "Complex application requiring orchestration")
    else
      ("vm", "Standard VM deployment for flexibility")
  generateStrategyDetails
    { type := base.1, reasoning := [base.2], infrastructure := none,
      estimated_cost := "low", complexity := "medium" }

/-! ## Secret identification (`InfrastructureManager.identifySecrets`) -/

/-- The fixed keyword list of `identifySecrets`. -/
def secretPatterns : List String :=
  ["password", "secret", "key", "token", "api"]

/-- Embeds `InfrastructureManager.identifySecrets` (infrastructureManager.js):
keeps every environment-variable name whose lowercased form contains one of
the keyword substrings. -/
def identifySecrets (envVars : List String) : List String :=
  envVars.filter (fun varName =>
    secretPatterns.any (fun pattern => jsIncludes (jsToLower varName) pattern))

/-! ## Port detection (`repositoryAnalyzer.js`, `RepositoryAnalyzer.detectPort`) -/

/-- Whether an optional port value is JavaScript-falsy (`!analysis.port`):
absent (`null`) or the number `0`. -/
def jsFalsyPort (p : Option Nat) : Bool :=
  match p with
  | none => true
  | some n => n = 0

/-- The `defaultPorts` table of `RepositoryAnalyzer.detectPort`, keyed by
`appType`, with the JavaScript `|| 8080` fallback for unknown or null keys. -/
def defaultPorts (appType : Option String) : Nat :=
  match appType with
  | some "node-express" => 3000
  | some "next-js" => 3000
  | some "react" => 3000
  | some "flask" => 5000
  | some "django" => 8000
  | some "fastapi" => 8000
  | some "spring-boot" => 8080
  | some "go" => 8080
  | some "static" => 80
  | _ => 8080

/-- Embeds `RepositoryAnalyzer.detectPort` (repositoryAnalyzer.js).  The regex scan
over the concatenated config-file text is represented by its outcome
`matchedPort` (the first captured number, `none` when no pattern matched);
afterwards a still-falsy `analysis.port` is replaced by the `defaultPorts`
entry for the detected `appType`. -/
def detectPort (matchedPort : Option Nat) (analysis : CodeAnalysis) :
    CodeAnalysis :=
  let scanned :=
    match matchedPort with
    | some p => { analysis with port := some p }
    | none => analysis
  if jsFalsyPort scanned.port then
    { scanned with port := some (defaultPorts scanned.appType) }
  else
    scanned

/-! ## Configuration assembler (`infrastructureManager.js`,
`InfrastructureManager.generateDeploymentConfig` and the `generate*Config`
helpers).  The two effectful inputs of the helpers — the clock read
`Date.now()` used in bucket names and the external AMI query issued by
`getAMI` — are passed explicitly as an `ExtEnv`. -/

structure ExtEnv where
  nowMs : Nat
  amiQuery : Except String String
deriving Repr

structure AppDescriptor where
  name : String
  type : Option String
  framework : Option String
  language : Option String
  port : Nat
  buildCommands : List String
  startCommands : List String
deriving Repr, DecidableEq

structure IngressRule where
  port : Nat
  protocol : String
  cidr : Option String
  source_sg : Option String
deriving Repr, DecidableEq

structure SecurityGroupsCfg where
  webIngress : List IngressRule
  appIngress : List IngressRule
deriving Repr, DecidableEq

structure NetworkingConfig where
  vpcCidr : String
  vpcEnableDns : Bool
  publicSubnets : List String
  privateSubnets : List String
  security_groups : SecurityGroupsCfg
  load_balancer : Bool
deriving Repr, DecidableEq

structure SecurityConfig where
  https_enabled : Bool
  ssl_certificate : String
  iam_execution_role : Bool
  iam_task_role : Bool
  secrets_manager : Bool
  waf_enabled : Bool
deriving Repr, DecidableEq

structure MonitoringConfig where
  cloudwatch_logs : Bool
  cloudwatch_metrics : Bool
  alarms : Bool
  xray_tracing : Bool
deriving Repr, DecidableEq

structure NodeScaling where
  desired_size : Nat
  max_size : Nat
  min_size : Nat
deriving Repr, DecidableEq

structure NodeGroup where
  instance_types : List String
  scaling_config : NodeScaling
deriving Repr, DecidableEq

/-- The per-strategy infrastructure descriptor of
`generateInfrastructureConfig`; fields absent from a branch are `none`. -/
structure InfrastructureConfig where
  provider : String
  region : String
  type : String
  s3_bucket : Option String := none
  cloudfront_distribution : Option Bool := none
  lambda_runtime : Option String := none
  memory : Option Nat := none
  timeout : Option Nat := none
  cluster_name : Option String := none
  service_name : Option String := none
  task_cpu : Option Nat := none
  task_memory : Option Nat := none
  desired_count : Option Nat := none
  instance_type : Option String := none
  ami : Option String := none
  key_pair : Option String := none
  node_group : Option NodeGroup := none
deriving Repr, DecidableEq

structure DatabaseConfig where
  engine : String
  instance_class : String
  allocated_storage : Nat
  multi_az : Bool
  backup_retention : Nat
  subnet_group : String
deriving Repr, DecidableEq

structure StorageConfig where
  s3_bucket : String
  versioning : Bool
  encryption : Bool
deriving Repr, DecidableEq

structure EnvSection where
  «variables» : List String
  secrets : List String
deriving Repr, DecidableEq

/-- Embeds `InfrastructureManager.getLambdaRuntime`: `runtimes[language] || default`
(a `null` language misses the table and takes the default). -/
def getLambdaRuntime (language : Option String) : String :=
  match language with
  | some "javascript" => "nodejs18.x"
  | some "python" => "python3.9"
  | some "java" => "java11"
  | some "go" => "go1.x"
  | _ => "nodejs18.x"

/-- The `fallbackAMIs` region table of `InfrastructureManager.getAMI`, with
its `|| fallbackAMIs["us-east-1"]` default. -/
def fallbackAMIs (region : String) : String :=
  if region = "us-east-1" then "ami-0b3a73487ec93ea0b"
  else if region = "us-west-2" then "ami-0c02fb55956c7d316"
  else if region = "eu-west-1" then "ami-0c9c942bd7bf113a2"
  else if region = "ap-southeast-1" then "ami-0df7a207adb9748c7"
  else "ami-0b3a73487ec93ea0b"

/-- Embeds `InfrastructureManager.getAMI` (infrastructureManager.js): the external
`aws ec2 describe-images` query is represented by `env.amiQuery`; a failed
query, an empty result, or a result not starting with `ami-` degrades to the
fallback table rather than propagating. -/
def getAMI (env : ExtEnv) (region : String) : String :=
  match env.amiQuery with
  | Except.ok amiId =>
      if amiId ≠ "" && amiId.startsWith "ami-" then amiId
      else fallbackAMIs region
  | Except.error _ => fallbackAMIs region

/-- Embeds `InfrastructureManager.generateInfrastructureConfig`. -/
def generateInfrastructureConfig (env : ExtEnv) (strategy : Strategy)
    (cloudProvider : String) (c : CodeAnalysis) : InfrastructureConfig :=
  let base : InfrastructureConfig :=
    { provider := cloudProvider, region := "us-east-1", type := strategy.type }
  if strategy.type = "static" then
    { base with
      s3_bucket := some ("static-site-" ++ toString env.nowMs),
      cloudfront_distribution := some true }
  else if strategy.type = "serverless" then
    { base with
      lambda_runtime := some (getLambdaRuntime c.language),
      memory := some 256, timeout := some 30 }
  else if strategy.type = "container" then
    { base with
      cluster_name := some "app-cluster", service_name := some "app-service",
      task_cpu := some 256, task_memory := some 512,
      desired_count := some 1 }
  else if strategy.type = "vm" then
    { base with
      instance_type := some "t3.micro",
      ami := some (getAMI env base.region),
      key_pair := some "app-keypair" }
  else if strategy.type = "kubernetes" then
    { base with
      cluster_name := some "app-cluster",
      node_group := some
        { instance_types := ["t3.medium"],
          scaling_config :=
            { desired_size := 2, max_size := 10, min_size := 1 } } }
  else base

/-- Embeds `InfrastructureManager.generateNetworkingConfig`: constant apart from
`load_balancer`, which is off only for the `static` strategy.  Note the
hard-coded `8080` in the internal `app` security-group template. -/
def generateNetworkingConfig (strategy : Strategy) : NetworkingConfig :=
  { vpcCidr := "10.0.0.0/16", vpcEnableDns := true,
    publicSubnets := ["10.0.1.0/24", "10.0.2.0/24"],
    privateSubnets := ["10.0.3.0/24", "10.0.4.0/24"],
    security_groups :=
      { webIngress :=
          [{ port := 80, protocol := "tcp", cidr := some "0.0.0.0/0",
             source_sg := none },
           { port := 443, protocol := "tcp", cidr := some "0.0.0.0/0",
             source_sg := none }],
        appIngress :=
          [{ port := 8080, protocol := "tcp", cidr := none,
             source_sg := some "web" }] },
    load_balancer := strategy.type ≠ "static" }

/-- Embeds `InfrastructureManager.generateSecurityConfig`: `https !== false` with a
tri-state `https` field. -/
def generateSecurityConfig (n : NlpAnalysis) : SecurityConfig :=
  { https_enabled := n.https ≠ some false,
    ssl_certificate := if n.customDomain then "acm" else "default",
    iam_execution_role := true, iam_task_role := true,
    secrets_manager := n.requirements.contains "security",
    waf_enabled := n.requirements.contains "security" }

/-- Embeds `InfrastructureManager.generateMonitoringConfig`. -/
def generateMonitoringConfig (n : NlpAnalysis) : MonitoringConfig :=
  { cloudwatch_logs := true, cloudwatch_metrics := true,
    alarms := n.monitoring ≠ some false,
    xray_tracing := n.requirements.contains "performance" }

/-- Embeds `InfrastructureManager.generateDatabaseConfig`:
`databaseRequirements[0] || "postgresql"`. -/
def generateDatabaseConfig (databaseRequirements : List String) :
    DatabaseConfig :=
  { engine := jsOrS databaseRequirements.head? "postgresql",
    instance_class := "db.t3.micro", allocated_storage := 20,
    multi_az := false, backup_retention := 7,
    subnet_group := "app-db-subnet-group" }

/-- Embeds `InfrastructureManager.generateStorageConfig`. -/
def generateStorageConfig (env : ExtEnv) : StorageConfig :=
  { s3_bucket := "app-storage-" ++ toString env.nowMs,
    versioning := true, encryption := true }

/-- The fully assembled deployment configuration produced by
`generateDeploymentConfig`.  The JavaScript object carries the application
port under `appPort` and `application.port`; it has NO top-level `port`
property, so the `port` field below is `none` for every assembler output —
it exists because `generatePublicUrl` and `deployApplication` read
`deploymentConfig.port` dynamically. -/
structure DeploymentConfig where
  deploymentId : String
  cloudProvider : String
  strategy : Strategy
  repositoryUrl : String
  description : String
  appName : String
  appType : String
  framework : String
  language : String
  appPort : Nat
  application : AppDescriptor
  infrastructure : InfrastructureConfig
  networking : NetworkingConfig
  security : SecurityConfig
  monitoring : MonitoringConfig
  environment : EnvSection
  database : Option DatabaseConfig
  storage : Option StorageConfig
  port : Option Nat
deriving Repr, DecidableEq

/-- The `analysis` argument destructured by `generateDeploymentConfig`. -/
structure AnalysisInput where
  codeAnalysis : CodeAnalysis
  nlpAnalysis : NlpAnalysis
  deploymentStrategy : Strategy
  repositoryUrl : Option String
  description : Option String
deriving Repr

/-- Embeds `InfrastructureManager.generateDeploymentConfig`
(infrastructureManager.js).  The application port is
`codeAnalysis.port || 8080` — a flat default, with no per-framework table at
this layer. -/
def generateDeploymentConfig (env : ExtEnv) (analysis : AnalysisInput)
    (deploymentId : String) : DeploymentConfig :=
  let c := analysis.codeAnalysis
  let n := analysis.nlpAnalysis
  let cloudProvider := jsOrS n.cloudProvider "aws"
  let strat := analysis.deploymentStrategy
  { deploymentId := deploymentId,
    cloudProvider := cloudProvider,
    strategy := strat,
    repositoryUrl :=
      jsOrS analysis.repositoryUrl "https://github.com/Arvo-AI/hello_world",
    description := jsOrS analysis.description "",
    appName := "app-" ++ deploymentId.take 8,
    appType := jsOrS c.appType "python",
    framework := jsOrS c.framework "flask",
    language := jsOrS c.language "python",
    appPort := jsOrPort c.port,
    application :=
      { name := "app-" ++ deploymentId.take 8, type := c.appType,
        framework := c.framework, language := c.language,
        port := jsOrPort c.port, buildCommands := c.buildCommands,
        startCommands := c.startCommands },
    infrastructure := generateInfrastructureConfig env strat cloudProvider c,
    networking := generateNetworkingConfig strat,
    security := generateSecurityConfig n,
    monitoring := generateMonitoringConfig n,
    environment :=
      { «variables» := c.environmentVariables,
        secrets := identifySecrets c.environmentVariables },
    database :=
      if c.databaseRequirements.length > 0 || n.databaseNeeded then
        some (generateDatabaseConfig c.databaseRequirements)
      else none,
    storage := if n.storageNeeded then some (generateStorageConfig env)
      else none,
    port := none }

/-! ## Public-URL derivation

`InfrastructureManager.generatePublicUrl` (infrastructureManager.js) and the
orchestrator-level derivation in `DeploymentService.deployApplication`
(deploymentService.js:164-173). -/

/-- The `infrastructure` argument of `generatePublicUrl`, an arbitrary
JavaScript object.  Each Terraform-output field carries the output entry's
`.value` when the entry is present; the JavaScript guard
`entry && entry.value` is truthiness of that value (`jsTruthyS`). -/
structure InfraArg where
  application_url : Option String
  instance_public_ip : Option String
  instance_public_dns : Option String
  region : Option String
  type : Option String
deriving Repr, DecidableEq

/-- One call's supply of `Math.random()` draws for the legacy fallback of
`generatePublicUrl`: `s1` models `Math.random().toString(36).substring(2, 15)`
and `n1`-`n4` model `Math.floor(Math.random() * 255)`. -/
structure Entropy where
  s1 : String
  n1 : Nat
  n2 : Nat
  n3 : Nat
  n4 : Nat
deriving Repr, DecidableEq

/-- Embeds `InfrastructureManager.generatePublicUrl` (infrastructureManager.js):
`application_url` output first, else `http://<ip>:<port>`, else
`http://<dns>:<port>`, else the legacy synthetic fallback; in every
port-using branch the port is `deploymentConfig.port || 8080`. -/
def generatePublicUrl (ent : Entropy) (infrastructure : InfraArg)
    (deploymentConfig : DeploymentConfig) : String :=
  if jsTruthyS infrastructure.application_url then
    infrastructure.application_url.getD ""
  else if jsTruthyS infrastructure.instance_public_ip then
    "http://" ++ infrastructure.instance_public_ip.getD "" ++ ":" ++
      toString (jsOrPort deploymentConfig.port)
  else if jsTruthyS infrastructure.instance_public_dns then
    "http://" ++ infrastructure.instance_public_dns.getD "" ++ ":" ++
      toString (jsOrPort deploymentConfig.port)
  else
    let region := jsOrS infrastructure.region "us-east-1"
    if infrastructure.type = some "static" then
      "https://d" ++ ent.s1 ++ ".cloudfront.net"
    else if infrastructure.type = some "serverless" then
      "https://" ++ ent.s1 ++ ".execute-api." ++ region ++
        ".amazonaws.com/prod"
    else
      "http://ec2-" ++ toString ent.n1 ++ "-" ++ toString ent.n2 ++ "-" ++
        toString ent.n3 ++ "-" ++ toString ent.n4 ++ "." ++ region ++
        ".compute.amazonaws.com:" ++ toString (jsOrPort deploymentConfig.port)

/-- The parsed `terraform output -json` map, as far as the orchestrator
reads it; a field is `some v` when the corresponding output entry is present
with value `v`.  Presence of the entry (a JavaScript object, hence truthy
regardless of its value) is what the orchestrator's guards test. -/
structure TfOutputsArg where
  application_url : Option String
  instance_public_ip : Option String
  instance_public_dns : Option String
deriving Repr, DecidableEq

/-- The public-URL derivation of `DeploymentService.deployApplication`
(deploymentService.js:164-173): the `application_url` output's value when
that entry exists, else `http://<ip>:<port||8080>` when the public-address
entry exists, else the deployment result's (legacy synthetic) URL. -/
def deployApplicationPublicUrl (outputs : Option TfOutputsArg)
    (deploymentConfig : DeploymentConfig) (deploymentResultUrl : String) :
    String :=
  match outputs with
  | some o =>
      match o.application_url with
      | some v => v
      | none =>
          match o.instance_public_ip with
          | some ip =>
              "http://" ++ ip ++ ":" ++
                toString (jsOrPort deploymentConfig.port)
          | none => deploymentResultUrl
  | none => deploymentResultUrl

/-! ## Progress calculation (`DeploymentService.calculateProgress`) -/

/-- Embeds `DeploymentService.calculateProgress` (deploymentService.js:718-726).
`Math.round(((i + 1) / (stages.length - 1)) * 100)` is computed here as the
exact half-up rounding `(2 * ((i + 1) * 100) + 3) / 6`, which agrees with
the JavaScript double computation on all three reachable indices
(33, 67, 100). -/
def calculateProgress (status : String) : Nat :=
  let stages := ["analyzed", "deploying", "deployed", "failed"]
  match stages.findIdx? (fun st => st == status) with
  | none => 0
  | some i => if status == "failed" then 100 else (2 * ((i + 1) * 100) + 3) / 6

/-! ## Status resolution and filesystem reconciliation
(`DeploymentService.getDeploymentStatus`, deploymentService.js:486-594) -/

/-- The slice of an in-memory deployment record that `getDeploymentStatus`
reads on a memory hit. -/
structure MemRecord where
  status : String
  timestamp : String
  publicUrl : Option String
  error : Option String
  instructions : Option (List String)
deriving Repr, DecidableEq

/-- The record returned to a status-polling caller. -/
structure StatusView where
  status : String
  timestamp : String
  publicUrl : Option String
  error : Option String
  progress : Nat
  note : Option String
  instructions : Option (List String)
deriving Repr, DecidableEq

/-- Embeds `DeploymentService.generateDeploymentInstructions`
(deploymentService.js:913-966): the manual-replication instruction list. -/
def generateDeploymentInstructions (repositoryUrl : Option String)
    (appType : Option String) (framework : Option String)
    (language : Option String) (terraformOutputs : Option TfOutputsArg) :
    List String :=
  ["1. Clone the repository:"] ++
  (match repositoryUrl with
   | some url => if url = "" then ["   # (Upload your codebase manually)"]
       else ["   git clone " ++ url]
   | none => ["   # (Upload your codebase manually)"]) ++
  ["",
   "2. Analyze the codebase and determine dependencies:",
   "   # Inspect requirements.txt, package.json, or other manifest files",
   "",
   "3. Generate and apply Terraform configuration:",
   "   # (Assumes AWS credentials are configured)",
   "   terraform init",
   "   terraform apply -auto-approve",
   "",
   "4. Wait for resources to be provisioned (EC2, VPC, Security Groups, EIP, etc.)",
   "",
   "5. SSH into the EC2 instance:"] ++
  (match terraformOutputs with
   | some outs =>
       match outs.instance_public_ip with
       | some ip => ["   ssh -i <your-key.pem> ec2-user@" ++ ip]
       | none => ["   ssh -i <your-key.pem> ec2-user@<EC2_PUBLIC_IP>"]
   | none => ["   ssh -i <your-key.pem> ec2-user@<EC2_PUBLIC_IP>"]) ++
  [""] ++
  (if appType = some "flask" || framework = some "flask" then
    ["6. Set up Python environment and deploy Flask app:",
     "   sudo yum install -y python3 python3-pip git",
     "   python3 -m venv venv && source venv/bin/activate",
     "   pip install -r requirements.txt",
     "   python app.py"]
   else if framework = some "express" || language = some "javascript" then
    ["6. Set up Node.js environment and deploy Node app:",
     "   sudo yum install -y nodejs npm git",
     "   npm install",
     "   npm start"]
   else
    ["6. Set up application environment and run your app:",
     "   # Install required runtime and dependencies",
     "   # Start your application manually"]) ++
  ["",
   "7. (Optional) Set up systemd service for auto-start on boot",
   "   # Create a systemd service file and enable it",
   "",
   "8. Access your application in the browser:"] ++
  (match terraformOutputs with
   | some outs =>
       match outs.application_url with
       | some u => ["   Open: " ++ u]
       | none => ["   Open: http://<EC2_PUBLIC_IP>:<PORT>"]
   | none => ["   Open: http://<EC2_PUBLIC_IP>:<PORT>"])

/-- The outputs query performed during filesystem reconciliation
(deploymentService.js:521-522).  The repository's `TerraformService`
defines no `getTerraformOutputs` method anywhere, so
`this.terraformService.getTerraformOutputs(terraformDir)` always raises a
TypeError, which the surrounding `catch (terraformError)` swallows. -/
def getTerraformOutputsCall : Except String TfOutputsArg :=
  Except.error
    "TypeError: this.terraformService.getTerraformOutputs is not a function"

/-- The successful-reconciliation view built at
deploymentService.js:524-565 — dead code in the program, since the outputs
query above can never succeed.  The address fallback hard-codes port 8080. -/
def reconstructCompletedView (now : String) (outs : TfOutputsArg) :
    StatusView :=
  let publicUrl : Option String :=
    match outs.application_url with
    | some v => some v
    | none =>
        match outs.instance_public_ip with
        | some ip => some ("http://" ++ ip ++ ":8080")
        | none => none
  { status := "completed", timestamp := now, publicUrl := publicUrl,
    error := none, progress := 100,
    note := some "Status reconstructed from deployment artifacts",
    instructions := some (generateDeploymentInstructions none (some "flask")
      (some "flask") none (some outs)) }

/-- Embeds `DeploymentService.getDeploymentStatus` (deploymentService.js:486-594):
memory hit first; else filesystem reconciliation when both the deployment
directory and `terraform.tfstate` exist (the query result decides between
the reconstructed-completed view and the ambiguous `unknown`/50 view); else
the not-found error.  The write-back of the reconstructed record into the
in-memory map is a side effect outside this read model. -/
def getDeploymentStatus (now : String) (mem : Option MemRecord)
    (dirExists stateFileExists : Bool) : Except String StatusView :=
  match mem with
  | some d =>
      Except.ok
        { status := d.status, timestamp := d.timestamp,
          publicUrl := d.publicUrl, error := d.error,
          progress := calculateProgress d.status, note := none,
          instructions := d.instructions }
  | none =>
      if dirExists && stateFileExists then
        match getTerraformOutputsCall with
        | Except.ok outs => Except.ok (reconstructCompletedView now outs)
        | Except.error _ =>
            Except.ok
              { status := "unknown", timestamp := now, publicUrl := none,
                error := none, progress := 50,
                note := some "Deployment artifacts found but status unclear",
                instructions := none }
      else Except.error "Deployment not found"

/-! ## Destroy (`DeploymentService.destroyDeployment`,
deploymentService.js:684-713, and `TerraformService.destroyInfrastructure`,
terraformService.js:1733-1789) -/

/-- A JavaScript value as passed to `path.join`: a string or a non-string
object. -/
inductive JsVal where
  | vstr (s : String)
  | vobj
deriving Repr, DecidableEq

/-- Node's `path.join`: every argument is validated to be a string; a
non-string argument raises a TypeError. -/
def pathJoinStrict : List JsVal → Except String String
  | [] => Except.ok ""
  | JsVal.vobj :: _ =>
      Except.error
        "TypeError: The \"path\" argument must be of type string. Received an instance of Object"
  | JsVal.vstr s :: rest =>
      (pathJoinStrict rest).map (fun r => if r = "" then s else s ++ "/" ++ r)

/-- Embeds `TerraformService.getLatestAMI`: the external `aws ec2 describe-images`
query is `amiQuery`; an empty or `"None"` result, or a query failure, falls
back to the fixed Amazon Linux 2 AMI id. -/
def getLatestAMI (amiQuery : Except String String) : String :=
  match amiQuery with
  | Except.ok amiId =>
      if amiId ≠ "" && amiId ≠ "None" then amiId else "ami-0e95a5e2743ec9ec9"
  | Except.error _ => "ami-0e95a5e2743ec9ec9"

/-- Result of a deprovision call plus the list of terraform-binary
invocations it performed. -/
structure DestroyOutcome where
  result : Except String String
  terraformInvocations : List (List String)
deriving Repr

/-- Embeds `TerraformService.destroyInfrastructure` (terraformService.js).
`deploymentId` is whatever JavaScript value the caller passes (the
orchestrator passes an object — see `destroyDeployment`); it reaches
`path.join` first, so a non-string argument raises before anything else.
With a string id: no `terraform.tfstate` → no-op success with no terraform
invocation; otherwise the AMI is re-resolved and `terraform destroy
-auto-approve` runs, its failure re-thrown. -/
def destroyInfrastructure (deploymentId : JsVal) (cwd : String)
    (stateExists : Bool) (amiQuery tfDestroy : Except String String) :
    DestroyOutcome :=
  match pathJoinStrict [JsVal.vstr cwd, JsVal.vstr "temp", deploymentId,
      JsVal.vstr "hello_world", JsVal.vstr "terraform"] with
  | Except.error e => { result := Except.error e, terraformInvocations := [] }
  | Except.ok _deploymentDir =>
      if !stateExists then
        { result := Except.ok "No infrastructure to destroy",
          terraformInvocations := [] }
      else
        let _amiId := getLatestAMI amiQuery
        match tfDestroy with
        | Except.ok _ =>
            { result := Except.ok "Infrastructure destroyed successfully",
              terraformInvocations := [["destroy", "-auto-approve"]] }
        | Except.error e =>
            { result := Except.error e,
              terraformInvocations := [["destroy", "-auto-approve"]] }

/-- The slice of a stored deployment record that `destroyDeployment` reads:
whether the record carries a (truthy) `infrastructure` result, and its
`codebasePath`. -/
structure StoredDeployment where
  infrastructure : Bool
  codebasePath : Option String
deriving Repr, DecidableEq

/-- Embeds `DeploymentService.destroyDeployment` (deploymentService.js:684-713).
Returns (outcome, terraform invocations, whether the record was removed).
When the record carries an infrastructure result the orchestrator calls
`destroyInfrastructure` passing the OBJECT
`{ deploymentId, workingDir: deployment.codebasePath }` where the callee
expects the id string (modeled by `JsVal.vobj`); local cleanup and the
in-memory delete run only when that call did not throw. -/
def destroyDeployment (mem : Option StoredDeployment) (cwd : String)
    (stateExists : Bool) (amiQuery tfDestroy : Except String String) :
    Except String Unit × List (List String) × Bool :=
  match mem with
  | none => (Except.error "Deployment not found", [], false)
  | some d =>
      if d.infrastructure then
        let o := destroyInfrastructure JsVal.vobj cwd stateExists amiQuery
          tfDestroy
        match o.result with
        | Except.error e => (Except.error e, o.terraformInvocations, false)
        | Except.ok _ => (Except.ok (), o.terraformInvocations, true)
      else (Except.ok (), [], true)

/-! ## Step tracking (`DeploymentService`, deploymentService.js)

JavaScript step objects are heterogeneous: `updateDeploymentStatus` appends
`{timestamp, status, message, error?}` entries while
`generateDeploymentSteps` produces `{id, title, description, status,
details}` entries; `StepEntry` is the union shape with absent fields as
`none`/`[]`. -/

structure StepEntry where
  id : Option String
  title : Option String
  description : Option String
  status : String
  details : List String
  timestamp : Option String
  message : Option String
  error : Option String
deriving Repr, DecidableEq

/-- The step entry appended by `updateDeploymentStatus`
(deploymentService.js:430-438). -/
def mkStatusStep (now status message : String) (error : Option String) :
    StepEntry :=
  { id := none, title := none, description := none, status := status,
    details := [], timestamp := some now, message := some message,
    error := error }

/-- The union of deployment-record fields that the step/status mutators
read and write.  `analyzeApplication`'s stored analysis result has no
`steps`, `appType`, `framework` or `language` properties; absent list
fields are modeled by `[]` (every reader guards them with `|| []`) and
absent scalars by `none`. -/
structure OrchRecord where
  deploymentId : String
  status : String
  currentStep : Option String
  lastUpdated : Option String
  steps : List StepEntry
  error : Option String
  hasResult : Bool
  appType : Option String
  framework : Option String
  language : Option String
  repositoryUrl : Option String
deriving Repr, DecidableEq

/-- Embeds `DeploymentService.updateDeploymentStatus`
(deploymentService.js:422-462): spreads the previous record (`|| {}` when
absent), overwrites `status`/`currentStep`/`lastUpdated`, and appends
exactly one step entry to `[...(deployment.steps || []), step]`; `result`
and `error` are written only when supplied. -/
def updateDeploymentStatus (now : String) (deployment : Option OrchRecord)
    (deploymentId status message : String) (resultGiven : Bool)
    (error : Option String) : OrchRecord :=
  let prev := deployment.getD
    { deploymentId := deploymentId, status := "", currentStep := none,
      lastUpdated := none, steps := [], error := none, hasResult := false,
      appType := none, framework := none, language := none,
      repositoryUrl := none }
  { prev with
    deploymentId := deploymentId,
    status := status,
    currentStep := some message,
    lastUpdated := some now,
    steps := prev.steps ++ [mkStatusStep now status message error],
    hasResult := prev.hasResult || resultGiven,
    error := match error with
      | some e => some e
      | none => prev.error }

/-- Embeds `DeploymentService.getSystemConfigDetails`
(deploymentService.js:798-830). -/
def getSystemConfigDetails (framework : String) : List String :=
  if ["flask", "django", "python"].contains (jsToLower framework) then
    ["Updating system packages (yum update)",
     "Installing Python 3 and pip",
     "Installing Git for repository cloning",
     "Creating application directory structure",
     "Setting up Python virtual environment"]
  else if ["node", "express", "javascript", "nextjs", "react"].contains
      (jsToLower framework) then
    ["Updating system packages (yum update)",
     "Installing Node.js 18.x LTS",
     "Installing npm package manager",
     "Installing Git for repository cloning",
     "Creating application directory structure"]
  else
    ["Updating system packages",
     "Installing runtime dependencies",
     "Installing Git for repository cloning",
     "Creating application directory structure"]

/-- Embeds `DeploymentService.getApplicationDeploymentDetails`
(deploymentService.js:835-870). -/
def getApplicationDeploymentDetails (framework : String)
    (repositoryUrl : Option String) : List String :=
  let repo := jsOrS repositoryUrl "application repository"
  if ["flask", "django", "python"].contains (jsToLower framework) then
    ["Cloning repository: " ++ repo,
     "Detecting main Python application file (app.py, main.py, server.py)",
     "Installing Python dependencies from requirements.txt",
     "Configuring Flask app to run on 0.0.0.0:8080",
     "Setting up application directory permissions"]
  else if ["node", "express", "javascript", "nextjs", "react"].contains
      (jsToLower framework) then
    ["Cloning repository: " ++ repo,
     "Detecting main Node.js entry point (server.js, app.js, index.js)",
     "Installing npm dependencies (npm install)",
     "Configuring application port to 8080",
     "Setting up application directory permissions"]
  else
    ["Cloning repository: " ++ repo,
     "Detecting application entry point",
     "Installing application dependencies",
     "Configuring application settings",
     "Setting up directory permissions"]

/-- Embeds `DeploymentService.getServiceSetupDetails`
(deploymentService.js:875-908). -/
def getServiceSetupDetails (framework : String) : List String :=
  if ["flask", "django", "python"].contains (jsToLower framework) then
    ["Creating systemd service file for Flask app",
     "Configuring service to auto-start on boot",
     "Setting correct working directory and permissions",
     "Starting flask-app.service",
     "Enabling automatic restart on failure"]
  else if ["node", "express", "javascript", "nextjs", "react"].contains
      (jsToLower framework) then
    ["Creating systemd service file for Node.js app",
     "Configuring service to auto-start on boot",
     "Setting correct working directory and permissions",
     "Starting node-app.service",
     "Enabling automatic restart on failure"]
  else
    ["Creating systemd service file",
     "Configuring service to auto-start on boot",
     "Setting correct working directory and permissions",
     "Starting application service",
     "Enabling automatic restart on failure"]

/-- Embeds `DeploymentService.generateDeploymentSteps`
(deploymentService.js:731-793).  The class body defines two methods of this
name; under JavaScript semantics the later definition (the five-step
id-labelled one) overrides the earlier nine-step variant, so only this one
is reachable. -/
def generateDeploymentSteps (appType framework language
    repositoryUrl : Option String) : List StepEntry :=
  let _appTypeUsed := jsOrS appType "web"
  let fw := jsOrS framework (jsOrS language "generic")
  [{ id := some "infrastructure",
     title := some "Setting up AWS Infrastructure",
     description := some
       "Creating VPC, subnets, security groups, and EC2 instance with Elastic IP",
     status := "pending",
     details :=
       ["Allocating static Elastic IP address",
        "Creating Virtual Private Cloud (VPC)",
        "Setting up public subnet with internet gateway",
        "Configuring security groups for web traffic",
        "Launching EC2 instance (t3.micro)"],
     timestamp := none, message := none, error := none },
   { id := some "system",
     title := some "Configuring Server Environment",
     description := some
       "Installing system dependencies and runtime environment",
     status := "pending",
     details := getSystemConfigDetails fw,
     timestamp := none, message := none, error := none },
   { id := some "application",
     title := some "Deploying Application",
     description := some "Cloning repository and installing dependencies",
     status := "pending",
     details := getApplicationDeploymentDetails fw repositoryUrl,
     timestamp := none, message := none, error := none },
   { id := some "service",
     title := some "Configuring Application Service",
     description := some "Setting up systemd service and starting application",
     status := "pending",
     details := getServiceSetupDetails fw,
     timestamp := none, message := none, error := none },
   { id := some "verification",
     title := some "Verifying Deployment",
     description := some "Testing application accessibility and health",
     status := "pending",
     details :=
       ["Checking service status",
        "Verifying port accessibility",
        "Testing HTTP response on port 8080",
        "Confirming application is live on Elastic IP"],
     timestamp := none, message := none, error := none }]

/-- The step mutation performed by `DeploymentService.deployApplication`
(deploymentService.js:126-132): sets `status = "deploying"` and REPLACES
`steps` with a freshly generated list
(`analysisResult.steps = this.generateDeploymentSteps(analysisResult)`). -/
def deployApplicationSetSteps (r : OrchRecord) : OrchRecord :=
  { r with
    status := "deploying",
    steps := generateDeploymentSteps r.appType r.framework r.language
      r.repositoryUrl }

/-- The record stored by `DeploymentService.analyzeApplication`
(deploymentService.js:72-85): a fresh object with `status = "analyzed"` and
NO `steps` property — `this.deployments.set(deploymentId, analysisResult)`
replaces whatever record (and steps) was previously stored under the id. -/
def analyzeApplicationStore (deploymentId _timestamp : String)
    (repositoryUrl _description : Option String) : OrchRecord :=
  { deploymentId := deploymentId, status := "analyzed",
    currentStep := none, lastUpdated := none, steps := [], error := none,
    hasResult := false, appType := none, framework := none,
    language := none, repositoryUrl := repositoryUrl }

/-! ## IaC template generator (`terraformService.js`, `TerraformService`)

Pure text synthesis.  The configuration slice these functions read is
`TfGenConfig`; JavaScript template-literal interpolation becomes string
concatenation, and the literal text is reproduced byte for byte (literal
braces appear as their escape codes). -/

structure TfGenConfig where
  deploymentId : Option String
  repositoryUrl : Option String
  appPort : Option Nat
  appName : Option String
  framework : Option String
  language : Option String
  appType : Option String
  environment : Option String
deriving Repr, DecidableEq

/-- Embeds `TerraformService.generateUserDataScript`
(terraformService.js:1182-1431): the host bootstrap script, branching on
framework/language/appType into the Python, Node.js, or Docker setup
procedure. -/
def generateUserDataScript (config : TfGenConfig) : String :=
  let repositoryUrl :=
    jsOrS config.repositoryUrl "https://github.com/Arvo-AI/hello_world"
  let appPort := toString (jsOrPort config.appPort)
  let appName := jsOrS config.appName "application"
  let framework := jsOrS config.framework ""
  let language := jsOrS config.language ""
  let appType := jsOrS config.appType ""
  "#!/bin/bash\n" ++
  "set -e  # Exit on any error\n" ++
  "exec > >(tee /var/log/user-data.log) 2>&1  # Log all output\n" ++
  "\n" ++
  "echo \"Starting deployment of " ++ appName ++ " at $(date)\"\n" ++
  "\n" ++
  "# Update system\n" ++
  "yum update -y\n" ++
  "\n" ++
  "# Install git for cloning repository\n" ++
  "yum install -y git\n" ++
  "\n" ++
  "# Install application-specific packages\n" ++
  "if [ \"" ++ framework ++ "\" = \"flask\" ] || [ \"" ++ framework ++
    "\" = \"django\" ] || [ \"" ++ language ++ "\" = \"python\" ] || [ \"" ++
    appType ++ "\" = \"python\" ]; then\n" ++
  "    echo \"Installing Python environment...\"\n" ++
  "    yum install -y python3 python3-pip python3-venv\n" ++
  "    \n" ++
  "    # Create app directory and clone repository\n" ++
  "    mkdir -p /app\n" ++
  "    cd /app\n" ++
  "    \n" ++
  "    echo \"Cloning repository " ++ repositoryUrl ++ "...\"\n" ++
  "    git clone " ++ repositoryUrl ++ " ./app-source\n" ++
  "    \n" ++
  "    # Find the application directory (look for main Python file)\n" ++
  "    MAIN_PY_FILE=\"\"\n" ++
  "    if [ -f \"./app-source/app/app.py\" ]; then\n" ++
  "        APP_DIR=\"/app/app-source/app\"\n" ++
  "        MAIN_PY_FILE=\"app.py\"\n" ++
  "    elif [ -f \"./app-source/app.py\" ]; then\n" ++
  "        APP_DIR=\"/app/app-source\"\n" ++
  "        MAIN_PY_FILE=\"app.py\"\n" ++
  "    elif [ -f \"./app-source/main.py\" ]; then\n" ++
  "        APP_DIR=\"/app/app-source\"\n" ++
  "        MAIN_PY_FILE=\"main.py\"\n" ++
  "    elif [ -f \"./app-source/server.py\" ]; then\n" ++
  "        APP_DIR=\"/app/app-source\"\n" ++
  "        MAIN_PY_FILE=\"server.py\"\n" ++
  "    else\n" ++
  "        echo \"Could not find main Python file, defaulting to app.py...\"\n" ++
  "        APP_DIR=\"/app/app-source\"\n" ++
  "        MAIN_PY_FILE=\"app.py\"\n" ++
  "    fi\n" ++
  "    \n" ++
  "    echo \"Application directory: $APP_DIR\"\n" ++
  "    echo \"Main Python file: $MAIN_PY_FILE\"\n" ++
  "    cd \"$APP_DIR\"\n" ++
  "    \n" ++
  "    # Create virtual environment\n" ++
  "    python3 -m venv /app/venv\n" ++
  "    source /app/venv/bin/activate\n" ++
  "    \n" ++
  "    # Install requirements if they exist\n" ++
  "    if [ -f \"requirements.txt\" ]; then\n" ++
  "        echo \"Installing requirements from requirements.txt...\"\n" ++
  "        pip install -r requirements.txt\n" ++
  "    else\n" ++
  "        echo \"No requirements.txt found, installing basic Flask...\"\n" ++
  "        pip install flask flask-cors gunicorn\n" ++
  "    fi\n" ++
  "    \n" ++
  "    # Instead of modifying the original file, create a wrapper script\n" ++
  "    echo \"Creating wrapper script for Flask app...\"\n" ++
  "    cat > \"$APP_DIR/run_app.py\" << \x27WRAPPER_EOF\x27\n" ++
  "#!/usr/bin/env python3\n" ++
  "import sys\n" ++
  "import os\n" ++
  "\n" ++
  "# Add the app directory to Python path\n" ++
  "sys.path.insert(0, os.path.dirname(os.path.abspath(__file__)))\n" ++
  "\n" ++
  "# Import the original app\n" ++
  "if os.path.exists(\x27app.py\x27):\n" ++
  "    from app import app\n" ++
  "elif os.path.exists(\x27main.py\x27):\n" ++
  "    from main import app\n" ++
  "elif os.path.exists(\x27server.py\x27):\n" ++
  "    from server import app\n" ++
  "else:\n" ++
  "    print(\"No Flask app file found!\")\n" ++
  "    sys.exit(1)\n" ++
  "\n" ++
  "if __name__ == \"__main__\":\n" ++
  "    print(\"Starting Flask app on 0.0.0.0:" ++ appPort ++ "...\")\n" ++
  "    app.run(host=\"0.0.0.0\", port=" ++ appPort ++ ", debug=False)\n" ++
  "WRAPPER_EOF\n" ++
  "\n" ++
  "    chmod +x \"$APP_DIR/run_app.py\"\n" ++
  "    echo \"Wrapper script created successfully\"\n" ++
  "    \n" ++
  "    # Create systemd service for the Flask app\n" ++
  "    cat > /etc/systemd/system/flask-app.service << \x27EOL\x27\n" ++
  "[Unit]\n" ++
  "Description=Flask Application\n" ++
  "After=network.target\n" ++
  "\n" ++
  "[Service]\n" ++
  "Type=simple\n" ++
  "User=ec2-user\n" ++
  "WorkingDirectory=$APP_DIR\n" ++
  "Environment=PATH=/app/venv/bin\n" ++
  "ExecStart=/app/venv/bin/python $APP_DIR/run_app.py\n" ++
  "Restart=always\n" ++
  "RestartSec=3\n" ++
  "StandardOutput=journal\n" ++
  "StandardError=journal\n" ++
  "\n" ++
  "[Install]\n" ++
  "WantedBy=multi-user.target\n" ++
  "EOL\n" ++
  "    \n" ++
  "    # Replace placeholders with actual paths\n" ++
  "    sed -i \"s|$APP_DIR|$APP_DIR|g\" /etc/systemd/system/flask-app.service\n" ++
  "    \n" ++
  "    # Set proper permissions\n" ++
  "    chown -R ec2-user:ec2-user /app\n" ++
  "    \n" ++
  "    # Enable and start the service\n" ++
  "    systemctl daemon-reload\n" ++
  "    systemctl enable flask-app\n" ++
  "    systemctl start flask-app\n" ++
  "    \n" ++
  "    # Check service status and log it\n" ++
  "    sleep 5\n" ++
  "    systemctl status flask-app || true\n" ++
  "    journalctl -u flask-app --no-pager -n 20 || true\n" ++
  "    \n" ++
  "    echo \"Flask application deployment completed at $(date)\"\n" ++
  "    echo \"Application should be accessible on port " ++ appPort ++ "\"\n" ++
  "    echo \"Service status logged above\"\n" ++
  "    \n" ++
  "    # Wait a bit and test the application\n" ++
  "    sleep 10\n" ++
  "    echo \"Testing application accessibility...\"\n" ++
  "    curl -f http://localhost:" ++ appPort ++
    "/ && echo \"✅ Application is responding locally\" || echo \"❌ Application not responding locally\"\n" ++
  "    \n" ++
  "    echo \"Deployment script finished successfully at $(date)\"\n" ++
  "    \n" ++
  "elif [ \"" ++ framework ++ "\" = \"express\" ] || [ \"" ++ framework ++
    "\" = \"node\" ] || [ \"" ++ appType ++ "\" = \"node\" ]; then\n" ++
  "    echo \"Installing Node.js environment...\"\n" ++
  "    curl -fsSL https://rpm.nodesource.com/setup_18.x | bash -\n" ++
  "    yum install -y nodejs npm\n" ++
  "    \n" ++
  "    # Create app directory and clone repository\n" ++
  "    mkdir -p /app\n" ++
  "    cd /app\n" ++
  "    \n" ++
  "    echo \"Cloning repository " ++ repositoryUrl ++ "...\"\n" ++
  "    git clone " ++ repositoryUrl ++ " ./app-source\n" ++
  "    cd /app/app-source\n" ++
  "    \n" ++
  "    # Find the main Node.js file\n" ++
  "    MAIN_JS_FILE=\"\"\n" ++
  "    if [ -f \"server.js\" ]; then\n" ++
  "        MAIN_JS_FILE=\"server.js\"\n" ++
  "    elif [ -f \"app.js\" ]; then\n" ++
  "        MAIN_JS_FILE=\"app.js\"\n" ++
  "    elif [ -f \"index.js\" ]; then\n" ++
  "        MAIN_JS_FILE=\"index.js\"\n" ++
  "    elif [ -f \"src/server.js\" ]; then\n" ++
  "        MAIN_JS_FILE=\"src/server.js\"\n" ++
  "    elif [ -f \"src/app.js\" ]; then\n" ++
  "        MAIN_JS_FILE=\"src/app.js\"\n" ++
  "    elif [ -f \"src/index.js\" ]; then\n" ++
  "        MAIN_JS_FILE=\"src/index.js\"\n" ++
  "    else\n" ++
  "        # Check package.json for main entry\n" ++
  "        if [ -f \"package.json\" ] && command -v node >/dev/null; then\n" ++
  "            MAIN_JS_FILE=$(node -e \"try \x7b console.log(require(\x27./package.json\x27).main || \x27index.js\x27); \x7d catch(e) \x7b console.log(\x27index.js\x27); \x7d\")\n" ++
  "        else\n" ++
  "            MAIN_JS_FILE=\"server.js\"\n" ++
  "        fi\n" ++
  "    fi\n" ++
  "    \n" ++
  "    echo \"Main Node.js file: $MAIN_JS_FILE\"\n" ++
  "    \n" ++
  "    # Install npm dependencies\n" ++
  "    if [ -f \"package.json\" ]; then\n" ++
  "        echo \"Installing npm dependencies...\"\n" ++
  "        npm install\n" ++
  "    fi\n" ++
  "    \n" ++
  "    # Create systemd service for Node.js app\n" ++
  "    cat > /etc/systemd/system/node-app.service << EOL\n" ++
  "[Unit]\n" ++
  "Description=Node.js Application\n" ++
  "After=network.target\n" ++
  "\n" ++
  "[Service]\n" ++
  "Type=simple\n" ++
  "User=ec2-user\n" ++
  "WorkingDirectory=/app/app-source\n" ++
  "ExecStart=/usr/bin/node $MAIN_JS_FILE\n" ++
  "Restart=always\n" ++
  "RestartSec=3\n" ++
  "Environment=PORT=" ++ appPort ++ "\n" ++
  "\n" ++
  "[Install]\n" ++
  "WantedBy=multi-user.target\n" ++
  "EOL\n" ++
  "    \n" ++
  "    # Set proper permissions\n" ++
  "    chown -R ec2-user:ec2-user /app\n" ++
  "    \n" ++
  "    # Enable and start the service\n" ++
  "    systemctl daemon-reload\n" ++
  "    systemctl enable node-app\n" ++
  "    systemctl start node-app\n" ++
  "    \n" ++
  "    echo \"Node.js application started successfully\"\n" ++
  "    \n" ++
  "else\n" ++
  "    echo \"Installing Docker for containerized applications...\"\n" ++
  "    yum install -y docker\n" ++
  "    systemctl start docker\n" ++
  "    systemctl enable docker\n" ++
  "    usermod -a -G docker ec2-user\n" ++
  "    \n" ++
  "    # Create app directory and clone repository\n" ++
  "    mkdir -p /app\n" ++
  "    cd /app\n" ++
  "    \n" ++
  "    echo \"Cloning repository " ++ repositoryUrl ++ "...\"\n" ++
  "    git clone " ++ repositoryUrl ++ " ./app-source\n" ++
  "    cd /app/app-source\n" ++
  "    \n" ++
  "    if [ -f \"Dockerfile\" ]; then\n" ++
  "        echo \"Building Docker image...\"\n" ++
  "        docker build -t myapp .\n" ++
  "        \n" ++
  "        echo \"Running Docker container...\"\n" ++
  "        docker run -d -p " ++ appPort ++ ":80 --name myapp-container myapp\n" ++
  "    else\n" ++
  "        echo \"No Dockerfile found, creating simple web server...\"\n" ++
  "        echo \"<h1>Hello World!</h1><p>Deployed at $(date)</p>\" > index.html\n" ++
  "        python3 -m http.server " ++ appPort ++ " &\n" ++
  "    fi\n" ++
  "fi\n" ++
  "\n" ++
  "echo \"Deployment completed successfully at $(date)\"\n"

/-- Embeds `TerraformService.generateMainTerraform`
(terraformService.js:1023-1180), first part: the EC2 instance resource
(with the bootstrap script in its `user_data`), VPC, internet gateway,
public subnet, route table and association. -/
def mainResourcesPart (config : TfGenConfig) : String :=
  "\n" ++
  "# EC2 Instance for application deployment\n" ++
  "resource \"aws_instance\" \"app_instance\" \x7b\n" ++
  "  ami           = var.ami_id\n" ++
  "  instance_type = var.instance_type\n" ++
  "  \n" ++
  "  vpc_security_group_ids = [aws_security_group.app_sg.id]\n" ++
  "  subnet_id              = aws_subnet.app_subnet.id\n" ++
  "  \n" ++
  "  user_data = base64encode(<<-EOF\n" ++
  generateUserDataScript config ++
  "\n" ++
  "EOF\n" ++
  "  )\n" ++
  "  \n" ++
  "  root_block_device \x7b\n" ++
  "    volume_type = \"gp3\"\n" ++
  "    volume_size = 20\n" ++
  "    encrypted   = true\n" ++
  "  \x7d\n" ++
  "  \n" ++
  "  tags = \x7b\n" ++
  "    Name        = \"$\x7bvar.app_name\x7d-instance\"\n" ++
  "    Environment = var.environment\n" ++
  "    ManagedBy   = \"Terraform\"\n" ++
  "  \x7d\n" ++
  "\x7d\n" ++
  "\n" ++
  "# VPC Configuration\n" ++
  "resource \"aws_vpc\" \"app_vpc\" \x7b\n" ++
  "  cidr_block           = var.vpc_cidr\n" ++
  "  enable_dns_hostnames = true\n" ++
  "  enable_dns_support   = true\n" ++
  "  \n" ++
  "  tags = \x7b\n" ++
  "    Name        = \"$\x7bvar.app_name\x7d-vpc\"\n" ++
  "    Environment = var.environment\n" ++
  "    ManagedBy   = \"Terraform\"\n" ++
  "  \x7d\n" ++
  "\x7d\n" ++
  "\n" ++
  "# Internet Gateway\n" ++
  "resource \"aws_internet_gateway\" \"app_igw\" \x7b\n" ++
  "  vpc_id = aws_vpc.app_vpc.id\n" ++
  "  \n" ++
  "  tags = \x7b\n" ++
  "    Name        = \"$\x7bvar.app_name\x7d-igw\"\n" ++
  "    Environment = var.environment\n" ++
  "    ManagedBy   = \"Terraform\"\n" ++
  "  \x7d\n" ++
  "\x7d\n" ++
  "\n" ++
  "# Public Subnet\n" ++
  "resource \"aws_subnet\" \"app_subnet\" \x7b\n" ++
  "  vpc_id                  = aws_vpc.app_vpc.id\n" ++
  "  cidr_block              = var.subnet_cidr\n" ++
  "  availability_zone       = var.availability_zone\n" ++
  "  map_public_ip_on_launch = true\n" ++
  "  \n" ++
  "  tags = \x7b\n" ++
  "    Name        = \"$\x7bvar.app_name\x7d-subnet\"\n" ++
  "    Environment = var.environment\n" ++
  "    ManagedBy   = \"Terraform\"\n" ++
  "  \x7d\n" ++
  "\x7d\n" ++
  "\n" ++
  "# Route Table\n" ++
  "resource \"aws_route_table\" \"app_rt\" \x7b\n" ++
  "  vpc_id = aws_vpc.app_vpc.id\n" ++
  "  \n" ++
  "  route \x7b\n" ++
  "    cidr_block = \"0.0.0.0/0\"\n" ++
  "    gateway_id = aws_internet_gateway.app_igw.id\n" ++
  "  \x7d\n" ++
  "  \n" ++
  "  tags = \x7b\n" ++
  "    Name        = \"$\x7bvar.app_name\x7d-rt\"\n" ++
  "    Environment = var.environment\n" ++
  "    ManagedBy   = \"Terraform\"\n" ++
  "  \x7d\n" ++
  "\x7d\n" ++
  "\n" ++
  "# Route Table Association\n" ++
  "resource \"aws_route_table_association\" \"app_rta\" \x7b\n" ++
  "  subnet_id      = aws_subnet.app_subnet.id\n" ++
  "  route_table_id = aws_route_table.app_rt.id\n" ++
  "\x7d\n" ++
  "\n"

/-- Embeds the security-group header and its SSH, HTTP and HTTPS ingress
rules (terraformService.js:1113-1142). -/
def sgWebIngressBlock : String :=
  "# Security Group\n" ++
  "resource \"aws_security_group\" \"app_sg\" \x7b\n" ++
  "  name_prefix = \"$\x7bvar.app_name\x7d-sg-\"\n" ++
  "  description = \"Security group for $\x7bvar.app_name\x7d\"\n" ++
  "  vpc_id      = aws_vpc.app_vpc.id\n" ++
  "  \n" ++
  "  ingress \x7b\n" ++
  "    description = \"SSH\"\n" ++
  "    from_port   = 22\n" ++
  "    to_port     = 22\n" ++
  "    protocol    = \"tcp\"\n" ++
  "    cidr_blocks = [\"0.0.0.0/0\"]\n" ++
  "  \x7d\n" ++
  "  \n" ++
  "  ingress \x7b\n" ++
  "    description = \"HTTP\"\n" ++
  "    from_port   = 80\n" ++
  "    to_port     = 80\n" ++
  "    protocol    = \"tcp\"\n" ++
  "    cidr_blocks = [\"0.0.0.0/0\"]\n" ++
  "  \x7d\n" ++
  "  \n" ++
  "  ingress \x7b\n" ++
  "    description = \"HTTPS\"\n" ++
  "    from_port   = 443\n" ++
  "    to_port     = 443\n" ++
  "    protocol    = \"tcp\"\n" ++
  "    cidr_blocks = [\"0.0.0.0/0\"]\n" ++
  "  \x7d\n" ++
  "  \n"

/-- Embeds the "Application Port" ingress rule of the generated security
group (terraformService.js:1143-1149): its ports are the string literals
`8080`, independent of the configuration. -/
def appPortIngressBlock : String :=
  "  ingress \x7b\n" ++
  "    description = \"Application Port\"\n" ++
  "    from_port   = 8080\n" ++
  "    to_port     = 8080\n" ++
  "    protocol    = \"tcp\"\n" ++
  "    cidr_blocks = [\"0.0.0.0/0\"]\n" ++
  "  \x7d\n"

/-- Embeds `TerraformService.generateMainTerraform`, final part: the
unrestricted egress rule, the security-group tags, and the Elastic IP
resource. -/
def mainTerraformPart3 : String :=
  "  \n" ++
  "  egress \x7b\n" ++
  "    description = \"All outbound traffic\"\n" ++
  "    from_port   = 0\n" ++
  "    to_port     = 0\n" ++
  "    protocol    = \"-1\"\n" ++
  "    cidr_blocks = [\"0.0.0.0/0\"]\n" ++
  "  \x7d\n" ++
  "  \n" ++
  "  tags = \x7b\n" ++
  "    Name        = \"$\x7bvar.app_name\x7d-sg\"\n" ++
  "    Environment = var.environment\n" ++
  "    ManagedBy   = \"Terraform\"\n" ++
  "  \x7d\n" ++
  "\x7d\n" ++
  "\n" ++
  "# Elastic IP for static public IP\n" ++
  "resource \"aws_eip\" \"app_eip\" \x7b\n" ++
  "  instance = aws_instance.app_instance.id\n" ++
  "  domain   = \"vpc\"\n" ++
  "  \n" ++
  "  tags = \x7b\n" ++
  "    Name        = \"$\x7bvar.app_name\x7d-eip\"\n" ++
  "    Environment = var.environment\n" ++
  "    ManagedBy   = \"Terraform\"\n" ++
  "  \x7d\n" ++
  "  \n" ++
  "  depends_on = [aws_internet_gateway.app_igw]\n" ++
  "\x7d\n"

/-- Embeds `TerraformService.generateMainTerraform`
(terraformService.js:1023-1180), assembled from its four parts. -/
def generateMainTerraform (config : TfGenConfig) : String :=
  mainResourcesPart config ++
    (sgWebIngressBlock ++ (appPortIngressBlock ++ mainTerraformPart3))

/-- Embeds `TerraformService.generateVariablesTerraform`
(terraformService.js:1433-1479). -/
def generateVariablesTerraform (config : TfGenConfig) : String :=
  let appName := jsOrS config.appName "hello_world"
  let environment := jsOrS config.environment "development"
  "\n" ++
  "variable \"ami_id\" \x7b\n" ++
  "  description = \"AMI ID to use for the instance\"\n" ++
  "  type        = string\n" ++
  "\x7d\n" ++
  "\n" ++
  "variable \"instance_type\" \x7b\n" ++
  "  description = \"EC2 instance type\"\n" ++
  "  type        = string\n" ++
  "  default     = \"t3.micro\"\n" ++
  "\x7d\n" ++
  "\n" ++
  "variable \"app_name\" \x7b\n" ++
  "  description = \"Name of the application\"\n" ++
  "  type        = string\n" ++
  "  default     = \"" ++ appName ++ "\"\n" ++
  "\x7d\n" ++
  "\n" ++
  "variable \"environment\" \x7b\n" ++
  "  description = \"Environment name\"\n" ++
  "  type        = string\n" ++
  "  default     = \"" ++ environment ++ "\"\n" ++
  "\x7d\n" ++
  "\n" ++
  "variable \"vpc_cidr\" \x7b\n" ++
  "  description = \"CIDR block for VPC\"\n" ++
  "  type        = string\n" ++
  "  default     = \"10.0.0.0/16\"\n" ++
  "\x7d\n" ++
  "\n" ++
  "variable \"subnet_cidr\" \x7b\n" ++
  "  description = \"CIDR block for subnet\"\n" ++
  "  type        = string\n" ++
  "  default     = \"10.0.1.0/24\"\n" ++
  "\x7d\n" ++
  "\n" ++
  "variable \"availability_zone\" \x7b\n" ++
  "  description = \"Availability zone for the subnet\"\n" ++
  "  type        = string\n" ++
  "  default     = \"us-east-1a\"\n" ++
  "\x7d\n"

/-- Embeds `TerraformService.generateOutputsTerraform`
(terraformService.js:1481-1520): the `application_url` output interpolates
the configured `appPort || 8080`. -/
def generateOutputsTerraform (config : TfGenConfig) : String :=
  let appPort := toString (jsOrPort config.appPort)
  "\n" ++
  "output \"instance_id\" \x7b\n" ++
  "  description = \"ID of the EC2 instance\"\n" ++
  "  value       = aws_instance.app_instance.id\n" ++
  "\x7d\n" ++
  "\n" ++
  "output \"instance_public_ip\" \x7b\n" ++
  "  description = \"Public IP address of the EC2 instance\"\n" ++
  "  value       = aws_eip.app_eip.public_ip\n" ++
  "\x7d\n" ++
  "\n" ++
  "output \"instance_public_dns\" \x7b\n" ++
  "  description = \"Public DNS name of the EC2 instance\"\n" ++
  "  value       = aws_instance.app_instance.public_dns\n" ++
  "\x7d\n" ++
  "\n" ++
  "output \"application_url\" \x7b\n" ++
  "  description = \"URL to access the deployed application\"\n" ++
  "  value       = \"http://$\x7baws_eip.app_eip.public_ip\x7d:" ++ appPort ++
    "\"\n" ++
  "\x7d\n" ++
  "\n" ++
  "output \"vpc_id\" \x7b\n" ++
  "  description = \"ID of the VPC\"\n" ++
  "  value       = aws_vpc.app_vpc.id\n" ++
  "\x7d\n" ++
  "\n" ++
  "output \"subnet_id\" \x7b\n" ++
  "  description = \"ID of the subnet\"\n" ++
  "  value       = aws_subnet.app_subnet.id\n" ++
  "\x7d\n" ++
  "\n" ++
  "output \"security_group_id\" \x7b\n" ++
  "  description = \"ID of the security group\"\n" ++
  "  value       = aws_security_group.app_sg.id\n" ++
  "\x7d\n"

/-- Embeds `TerraformService.generateProvidersTerraform`
(terraformService.js:1522-1553): constant text. -/
def generateProvidersTerraform (_config : TfGenConfig) : String :=
  "\n" ++
  "terraform \x7b\n" ++
  "  required_version = \">= 1.0\"\n" ++
  "  \n" ++
  "  required_providers \x7b\n" ++
  "    aws = \x7b\n" ++
  "      source  = \"hashicorp/aws\"\n" ++
  "      version = \"~> 5.31.0\"\n" ++
  "    \x7d\n" ++
  "  \x7d\n" ++
  "\x7d\n" ++
  "\n" ++
  "provider \"aws\" \x7b\n" ++
  "  region = var.aws_region\n" ++
  "  \n" ++
  "  default_tags \x7b\n" ++
  "    tags = \x7b\n" ++
  "      Project     = var.app_name\n" ++
  "      Environment = var.environment\n" ++
  "      ManagedBy   = \"Terraform\"\n" ++
  "    \x7d\n" ++
  "  \x7d\n" ++
  "\x7d\n" ++
  "\n" ++
  "variable \"aws_region\" \x7b\n" ++
  "  description = \"AWS region\"\n" ++
  "  type        = string\n" ++
  "  default     = \"us-east-1\"\n" ++
  "\x7d\n"

/-- The four generated template texts. -/
structure TerraformConfigs where
  main : String
  «variables» : String
  outputs : String
  providers : String
deriving Repr, DecidableEq

/-- Embeds `TerraformService.generateTerraformConfig`
(terraformService.js:1000-1021): bundles the four template texts.  Like
every `generate*Terraform` function it is a pure function of the
configuration — no clock, randomness or environment parameter is needed. -/
def generateTerraformConfig (config : TfGenConfig) : TerraformConfigs :=
  { main := generateMainTerraform config,
    «variables» := generateVariablesTerraform config,
    outputs := generateOutputsTerraform config,
    providers := generateProvidersTerraform config }

/-! ## Concrete sample inputs used by the theorems below -/

/-- A Flask codebase analysis as the inspector reports it before port
inference: `port` is null. -/
def flaskCodeAnalysis : CodeAnalysis :=
  { appType := some "flask", framework := some "flask",
    language := some "python", port := none,
    dependencies := some ["flask"], buildCommands := [],
    startCommands := ["python app.py"],
    environmentVariables := ["DB_PASSWORD", "DB_HOST"],
    databaseRequirements := [], dockerized := false, staticFiles := false }

/-- The same Flask analysis after `detectPort` has applied the framework
table (`flask` → 5000). -/
def flaskDetectedCodeAnalysis : CodeAnalysis :=
  { flaskCodeAnalysis with port := some 5000 }

/-- A default intent analysis with no explicit deployment type. -/
def defaultNlp : NlpAnalysis :=
  { cloudProvider := some "aws", deploymentType := none,
    environment := some "production", scalingRequirements := some "low",
    estimatedTraffic := some "low", databaseNeeded := false,
    storageNeeded := false, customDomain := false, https := some false,
    monitoring := some false, requirements := [] }

/-- An intent analysis whose `deploymentType` is the §6-valid string
`"docker"`, which is outside the five strategy names. -/
def dockerNlp : NlpAnalysis := { defaultNlp with deploymentType := some "docker" }

/-- A fixed external environment: clock at a constant and a failing AMI
query (exercising the documented fallback). -/
def env0 : ExtEnv := { nowMs := 1700000000000, amiQuery := Except.error "unavailable" }

/-- The analysis record handed to the assembler for the Flask scenario with
an undetected (null) port. -/
def flaskAnalysisInput : AnalysisInput :=
  { codeAnalysis := flaskCodeAnalysis, nlpAnalysis := defaultNlp,
    deploymentStrategy := determineDeploymentStrategy flaskCodeAnalysis defaultNlp,
    repositoryUrl := some "https://example/repo",
    description := some "Deploy my Flask app on AWS" }

/-- The analysis record for the Flask scenario after port detection
(`port = 5000`). -/
def flaskDetectedAnalysisInput : AnalysisInput :=
  { flaskAnalysisInput with codeAnalysis := flaskDetectedCodeAnalysis }

/-- The assembled configuration for the detected-port Flask scenario:
`appPort = 5000` while the top-level `port` property is absent. -/
def flaskConfig5000 : DeploymentConfig :=
  generateDeploymentConfig env0 flaskDetectedAnalysisInput "abcdef12-3456"

/-- Provisioning outputs carrying only a public address. -/
def ipOnlyInfra : InfraArg :=
  { application_url := none, instance_public_ip := some "1.2.3.4",
    instance_public_dns := none, region := none, type := none }

/-- Provisioning outputs carrying a reported application URL. -/
def urlInfra : InfraArg :=
  { application_url := some "http://3.3.3.3:5000", instance_public_ip := some "1.2.3.4",
    instance_public_dns := none, region := none, type := none }

/-- Provisioning outputs carrying only a public DNS name. -/
def dnsOnlyInfra : InfraArg :=
  { application_url := none, instance_public_ip := none,
    instance_public_dns := some "ec2-1-2-3-4.compute.amazonaws.com",
    region := none, type := none }

/-- A fixed entropy supply for the legacy fallback branch. -/
def ent0 : Entropy := { s1 := "abc123xyz", n1 := 10, n2 := 20, n3 := 30, n4 := 40 }

/-- The template-generator configuration slice for the detected-port Flask
scenario. -/
def flask5000TfConfig : TfGenConfig :=
  { deploymentId := some "abcdef12-3456",
    repositoryUrl := some "https://example/repo", appPort := some 5000,
    appName := some "app-abcdef12", framework := some "flask",
    language := some "python", appType := some "flask", environment := none }

/-- An in-memory record polled at terminal-success status `completed`. -/
def completedMemRecord : MemRecord :=
  { status := "completed", timestamp := "t0",
    publicUrl := some "http://1.2.3.4:8080", error := none,
    instructions := none }

/-- A stored deployment record that carries an infrastructure result. -/
def storedWithInfra : StoredDeployment :=
  { infrastructure := true, codebasePath := some "/srv/temp/d1/repo" }

/-- A stored deployment record without an infrastructure result (for
example, one that only completed analysis). -/
def storedNoInfra : StoredDeployment :=
  { infrastructure := false, codebasePath := some "/srv/temp/d1/repo" }

/-- A step entry recorded by the status updater before deployment starts. -/
def stepBefore : StepEntry :=
  mkStatusStep "t1" "deploying" "Starting deployment..." none

/-- A record holding one previously recorded step entry. -/
def recordWithStep : OrchRecord :=
  { deploymentId := "d1", status := "deploying",
    currentStep := some "Starting deployment...", lastUpdated := some "t1",
    steps := [stepBefore], error := none, hasResult := false,
    appType := none, framework := none, language := none,
    repositoryUrl := some "https://example/repo" }

/-- The five strategy names of the closed strategy set. -/
def strategyTypes : List String :=
  ["static", "serverless", "container", "vm", "kubernetes"]

/-! ## Helper lemmas -/

/-- The strategy-detail generators never change the decided type. -/
theorem generateStrategyDetails_type (s : Strategy) :
    (generateStrategyDetails s).type = s.type := by
  unfold generateStrategyDetails
  split_ifs <;> rfl

/-! ## Claim theorems -/

/-- C6: an environment-variable name is flagged as a secret exactly when
its lowercased form contains one of the substrings `password`, `secret`,
`key`, `token`, `api` (case-insensitive substring match); in particular
`DB_PASSWORD` is flagged and `DB_HOST` is not. -/
theorem identifySecrets_substring_spec :
    (∀ (envVars : List String) (v : String),
      v ∈ identifySecrets envVars ↔
        v ∈ envVars ∧
          secretPatterns.any (fun p => jsIncludes (jsToLower v) p) = true) ∧
    identifySecrets ["DB_PASSWORD", "DB_HOST"] = ["DB_PASSWORD"] := by
  refine ⟨?_, by decide⟩
  intro envVars v
  simp [identifySecrets, List.mem_filter]

/-- C10: `calculateProgress` yields 100 for `failed`, the buckets 33/67/100
for `analyzed`/`deploying`/`deployed`, and 0 for every other status — in
particular for the lifecycle statuses `initializing`, `analyzing`,
`completing` and `completed`; a record polled from memory at status
`completed` therefore reports progress 0. -/
theorem calculateProgress_fixed_buckets :
    (∀ s : String, calculateProgress s =
      if s = "analyzed" then 33
      else if s = "deploying" then 67
      else if s = "deployed" then 100
      else if s = "failed" then 100
      else 0) ∧
    calculateProgress "completed" = 0 ∧
    calculateProgress "initializing" = 0 ∧
    calculateProgress "analyzing" = 0 ∧
    calculateProgress "completing" = 0 ∧
    getDeploymentStatus "t1" (some completedMemRecord) false false =
      Except.ok
        { status := "completed", timestamp := "t0",
          publicUrl := some "http://1.2.3.4:8080", error := none,
          progress := 0, note := none, instructions := none } := by
  refine ⟨?_, rfl, rfl, rfl, rfl, rfl⟩
  intro s
  by_cases h1 : s = "analyzed"
  · subst h1; decide
  by_cases h2 : s = "deploying"
  · subst h2; decide
  by_cases h3 : s = "deployed"
  · subst h3; decide
  by_cases h4 : s = "failed"
  · subst h4; decide
  have g1 : ("analyzed" == s) = false := by
    rw [beq_eq_false_iff_ne]; exact fun e => h1 e.symm
  have g2 : ("deploying" == s) = false := by
    rw [beq_eq_false_iff_ne]; exact fun e => h2 e.symm
  have g3 : ("deployed" == s) = false := by
    rw [beq_eq_false_iff_ne]; exact fun e => h3 e.symm
  have g4 : ("failed" == s) = false := by
    rw [beq_eq_false_iff_ne]; exact fun e => h4 e.symm
  simp [calculateProgress, List.findIdx?_cons, List.findIdx?_nil,
    g1, g2, g3, g4, h1, h2, h3, h4]

/-- C7: the IaC template generator is deterministic — identical
configurations yield byte-identical main/variables/outputs/providers texts
and bootstrap script.  The embedding witnesses this by the generators being
pure functions of the configuration alone, with no clock, entropy or
environment parameter (contrast `generateInfrastructureConfig`, which
needs `ExtEnv`). -/
theorem generateTerraformConfig_deterministic (c₁ c₂ : TfGenConfig)
    (h : c₁ = c₂) :
    generateTerraformConfig c₁ = generateTerraformConfig c₂ ∧
    generateUserDataScript c₁ = generateUserDataScript c₂ := by
  subst h; exact ⟨rfl, rfl⟩

/-- C7 witness: the determinism theorem applied at the concrete Flask
configuration. -/
theorem generateTerraformConfig_deterministic_witness :
    generateTerraformConfig flask5000TfConfig =
      generateTerraformConfig flask5000TfConfig ∧
    generateUserDataScript flask5000TfConfig =
      generateUserDataScript flask5000TfConfig :=
  generateTerraformConfig_deterministic flask5000TfConfig flask5000TfConfig
    rfl

/-- C9 counterexample: a step entry recorded by `updateDeploymentStatus`
is removed when `deployApplication` replaces the `steps` list with a
freshly generated one, so the steps list is not globally append-only. -/
theorem deployApplicationSetSteps_drops_recorded_step :
    stepBefore ∈ recordWithStep.steps ∧
    stepBefore ∉ (deployApplicationSetSteps recordWithStep).steps := by
  decide

/-- C9 amended: within `updateDeploymentStatus` the steps list is
append-only — every call preserves the previously recorded entries and
appends exactly one new entry; the global claim fails because
`deployApplication` replaces the list wholesale (see the counterexample)
and `analyzeApplication` stores a fresh record without prior steps. -/
theorem updateDeploymentStatus_appends (now : String)
    (deployment : Option OrchRecord) (deploymentId status message : String)
    (resultGiven : Bool) (error : Option String) :
    (updateDeploymentStatus now deployment deploymentId status message
        resultGiven error).steps =
      (deployment.elim [] OrchRecord.steps) ++
        [mkStatusStep now status message error] := by
  cases deployment <;> rfl

/-- C8: on a deployment whose record exists in memory,
`destroyDeployment` never invokes the terraform binary when no state
artifact exists; but when the record carries an infrastructure result the
call fails with a TypeError (the orchestrator passes the object
`{deploymentId, workingDir}` where `destroyInfrastructure` expects the id
string, and `path.join` rejects it) and the record is retained — even
though `destroyInfrastructure` itself, given the id string, would return a
no-op success. -/
theorem destroyDeployment_no_state_behavior :
    (∀ (stateExists : Bool) (amiQ tfD : Except String String),
      destroyDeployment (some storedWithInfra) "/srv/app" stateExists amiQ
          tfD =
        (Except.error
          "TypeError: The \"path\" argument must be of type string. Received an instance of Object",
         [], false)) ∧
    (∀ amiQ tfD : Except String String,
      destroyDeployment (some storedNoInfra) "/srv/app" false amiQ tfD =
        (Except.ok (), [], true)) ∧
    destroyInfrastructure (JsVal.vstr "d1") "/srv/app" false
        (Except.error "query failed") (Except.ok "") =
      { result := Except.ok "No infrastructure to destroy",
        terraformInvocations := [] } ∧
    destroyDeployment none "/srv/app" false (Except.error "q")
        (Except.ok "") =
      (Except.error "Deployment not found", [], false) := by
  exact ⟨fun _ _ _ => rfl, fun _ _ => rfl, rfl, rfl⟩

/-- C3: filesystem reconciliation can never return `completed` — the
repository defines no `getTerraformOutputs` method, so the outputs query
always raises and the reconciliation path always yields the ambiguous
`unknown` status with progress 50 and a null URL; with no memory record
and no state artifact, resolution fails with the not-found error. -/
theorem getDeploymentStatus_reconciliation_always_unknown :
    (∀ now : String,
      getDeploymentStatus now none true true =
        Except.ok
          { status := "unknown", timestamp := now, publicUrl := none,
            error := none, progress := 50,
            note := some "Deployment artifacts found but status unclear",
            instructions := none }) ∧
    (∀ (now : String) (dirExists stateFileExists : Bool),
      (getDeploymentStatus now none dirExists stateFileExists).toOption.elim
        True (fun v => v.status = "unknown")) ∧
    getDeploymentStatus "t0" none false false =
      Except.error "Deployment not found" ∧
    getTerraformOutputsCall =
      Except.error
        "TypeError: this.terraformService.getTerraformOutputs is not a function" := by
  refine ⟨fun now => rfl, ?_, rfl, rfl⟩
  intro now dE sE
  cases dE <;> cases sE <;>
    simp [getDeploymentStatus, getTerraformOutputsCall, Except.toOption]

/-- C1 counterexample: `determineDeploymentStrategy` copies an explicitly
named deployment type verbatim, so the §6-valid intent value `"docker"`
yields a strategy type outside the closed five-element set. -/
theorem determineDeploymentStrategy_verbatim_type_escape :
    (determineDeploymentStrategy flaskCodeAnalysis dockerNlp).type =
      "docker" ∧
    (determineDeploymentStrategy flaskCodeAnalysis dockerNlp).type ∉
      strategyTypes := by
  decide

/-- Shape of the decided type: the five-priority if-chain. -/
theorem determineDeploymentStrategy_type (c : CodeAnalysis)
    (n : NlpAnalysis) :
    (determineDeploymentStrategy c n).type =
      if jsTruthyS n.deploymentType then n.deploymentType.getD ""
      else if c.appType == some "static" ||
          (c.staticFiles && !jsTruthyS c.appType) then "static"
      else if shouldUseServerless c n then "serverless"
      else if c.dockerized || shouldUseContainer c n then "container"
      else if shouldUseKubernetes c n then "kubernetes"
      else "vm" := by
  unfold determineDeploymentStrategy
  rw [generateStrategyDetails_type]
  split_ifs <;> rfl

/-- C1 amended: whenever the intent's `deploymentType` is absent, empty, or
one of the five strategy names, the decided type lies in the closed set
`{static, serverless, container, vm, kubernetes}` (and the embedding is a
total function, so no §6-valid input can make it raise); when no decision
rule matches, the type is the `vm` default.  The unamended claim fails
because an explicitly named type is copied verbatim (see the
counterexample). -/
theorem determineDeploymentStrategy_closed_set (c : CodeAnalysis)
    (n : NlpAnalysis)
    (h : n.deploymentType = none ∨ n.deploymentType = some "" ∨
      n.deploymentType ∈ strategyTypes.map some) :
    (determineDeploymentStrategy c n).type ∈ strategyTypes ∧
    ((jsTruthyS n.deploymentType = false ∧
      (c.appType == some "static" ||
        (c.staticFiles && !jsTruthyS c.appType)) = false ∧
      shouldUseServerless c n = false ∧
      (c.dockerized || shouldUseContainer c n) = false ∧
      shouldUseKubernetes c n = false) →
      (determineDeploymentStrategy c n).type = "vm") := by
  constructor
  · rw [determineDeploymentStrategy_type]
    split_ifs with h1 h2 h3 h4 h5
    · rcases h with h | h | h
      · rw [h] at h1; simp [jsTruthyS] at h1
      · rw [h] at h1; simp [jsTruthyS] at h1
      · simp only [strategyTypes, List.map, List.mem_cons,
          List.not_mem_nil, or_false] at h
        rcases h with h | h | h | h | h <;> simp [h, strategyTypes]
    · simp [strategyTypes]
    · simp [strategyTypes]
    · simp [strategyTypes]
    · simp [strategyTypes]
    · simp [strategyTypes]
  · rintro ⟨e1, e2, e3, e4, e5⟩
    rw [determineDeploymentStrategy_type]
    simp [e1, e2, e3, e4, e5]

/-- C1 witness: the closed-set theorem applied at the concrete Flask
analysis with the default intent (no explicit deployment type). -/
theorem determineDeploymentStrategy_closed_set_witness :
    (determineDeploymentStrategy flaskCodeAnalysis defaultNlp).type ∈
      strategyTypes :=
  (determineDeploymentStrategy_closed_set flaskCodeAnalysis defaultNlp
    (Or.inl rfl)).1

/-- C2 counterexample: for the assembled Flask configuration (application
port 5000), address-only outputs derive `http://1.2.3.4:8080`, not
`http://1.2.3.4:5000` — the derivation reads the config's `port` property,
which the assembler never sets, so the configured application port
(`appPort`) is ignored. -/
theorem generatePublicUrl_port_counterexample :
    flaskConfig5000.appPort = 5000 ∧
    flaskConfig5000.application.port = 5000 ∧
    flaskConfig5000.port = none ∧
    generatePublicUrl ent0 ipOnlyInfra flaskConfig5000 =
      "http://1.2.3.4:8080" ∧
    generatePublicUrl ent0 ipOnlyInfra flaskConfig5000 ≠
      "http://1.2.3.4:5000" ∧
    deployApplicationPublicUrl
        (some { application_url := none,
                instance_public_ip := some "1.2.3.4",
                instance_public_dns := none })
        flaskConfig5000 "http://fallback" =
      "http://1.2.3.4:8080" := by
  decide

/-- C2 amended: public-URL derivation follows the exact precedence — the
`application_url` output when present (non-empty), else
`http://<address>:<port>`, else `http://<dns>:<port>` — where `<port>` is
the config's `port` property with default 8080
(`deploymentConfig.port || 8080`), NOT the assembled `appPort`; the
orchestrator-level derivation obeys the same first two steps and then falls
back to the deployment result's URL. -/
theorem publicUrl_derivation_precedence (ent : Entropy) (infra : InfraArg)
    (cfg : DeploymentConfig) :
    (∀ u, infra.application_url = some u → u ≠ "" →
      generatePublicUrl ent infra cfg = u) ∧
    (jsTruthyS infra.application_url = false →
      ∀ a, infra.instance_public_ip = some a → a ≠ "" →
        generatePublicUrl ent infra cfg =
          "http://" ++ a ++ ":" ++ toString (jsOrPort cfg.port)) ∧
    (jsTruthyS infra.application_url = false →
      jsTruthyS infra.instance_public_ip = false →
      ∀ d, infra.instance_public_dns = some d → d ≠ "" →
        generatePublicUrl ent infra cfg =
          "http://" ++ d ++ ":" ++ toString (jsOrPort cfg.port)) ∧
    (∀ (outs : TfOutputsArg) (fb u : String),
      outs.application_url = some u →
      deployApplicationPublicUrl (some outs) cfg fb = u) ∧
    (∀ (outs : TfOutputsArg) (fb a : String),
      outs.application_url = none → outs.instance_public_ip = some a →
      deployApplicationPublicUrl (some outs) cfg fb =
        "http://" ++ a ++ ":" ++ toString (jsOrPort cfg.port)) := by
  refine ⟨?_, ?_, ?_, ?_, ?_⟩
  · intro u hu hne
    have h1 : jsTruthyS infra.application_url = true := by
      simp [jsTruthyS, hu, hne]
    simp only [generatePublicUrl, h1]
    simp [hu]
  · intro hurl a ha hne
    have h2 : jsTruthyS infra.instance_public_ip = true := by
      simp [jsTruthyS, ha, hne]
    simp only [generatePublicUrl, hurl, h2]
    simp [ha]
  · intro hurl hip d hd hne
    have h3 : jsTruthyS infra.instance_public_dns = true := by
      simp [jsTruthyS, hd, hne]
    simp only [generatePublicUrl, hurl, hip, h3]
    simp [hd]
  · intro outs fb u hu
    simp [deployApplicationPublicUrl, hu]
  · intro outs fb a h0 ha
    simp [deployApplicationPublicUrl, h0, ha]

/-- C2 witness: the precedence theorem applied at concrete outputs — a
reported URL, an address-only record, and a DNS-only record — against the
assembled Flask configuration. -/
theorem publicUrl_derivation_precedence_witness :
    generatePublicUrl ent0 urlInfra flaskConfig5000 =
      "http://3.3.3.3:5000" ∧
    generatePublicUrl ent0 ipOnlyInfra flaskConfig5000 =
      "http://" ++ "1.2.3.4" ++ ":" ++
        toString (jsOrPort flaskConfig5000.port) ∧
    generatePublicUrl ent0 dnsOnlyInfra flaskConfig5000 =
      "http://" ++ "ec2-1-2-3-4.compute.amazonaws.com" ++ ":" ++
        toString (jsOrPort flaskConfig5000.port) := by
  refine ⟨?_, ?_, ?_⟩
  · exact (publicUrl_derivation_precedence ent0 urlInfra flaskConfig5000).1
      "http://3.3.3.3:5000" rfl (by decide)
  · exact (publicUrl_derivation_precedence ent0 ipOnlyInfra
      flaskConfig5000).2.1 (by decide) "1.2.3.4" rfl (by decide)
  · exact (publicUrl_derivation_precedence ent0 dnsOnlyInfra
      flaskConfig5000).2.2.1 (by decide) (by decide)
      "ec2-1-2-3-4.compute.amazonaws.com" rfl (by decide)

/-- C4 counterexample: with a Flask code analysis reporting a null port,
the assembled configuration's application port is the flat default 8080,
not the framework-table value 5000 — the per-framework table lives in the
analyzer's `detectPort`, not in the assembler. -/
theorem generateDeploymentConfig_nullPort_flask_counterexample :
    flaskCodeAnalysis.framework = some "flask" ∧
    flaskCodeAnalysis.appType = some "flask" ∧
    flaskCodeAnalysis.port = none ∧
    (generateDeploymentConfig env0 flaskAnalysisInput
        "abcdef12-3456").appPort = 8080 ∧
    (generateDeploymentConfig env0 flaskAnalysisInput
        "abcdef12-3456").application.port = 8080 ∧
    (8080 : Nat) ≠ 5000 := by
  decide

/-- C4 amended: the fixed per-framework port table is applied by the
analyzer's `detectPort` when no port pattern matched (Flask → 5000,
node-express/next-js/react → 3000, spring-boot/go → 8080, else 8080), so
an analyzer-produced `codeAnalysis` never reports a null port; the
assembler itself maps a null port to the flat default 8080 and otherwise
uses the detected port unchanged. -/
theorem detectPort_table_and_assembler_default (a : CodeAnalysis)
    (h : a.port = none) (env : ExtEnv) (inp : AnalysisInput) (id : String) :
    (detectPort none a).port = some (defaultPorts a.appType) ∧
    (a.appType = some "flask" → (detectPort none a).port = some 5000) ∧
    (generateDeploymentConfig env inp id).appPort =
      jsOrPort inp.codeAnalysis.port ∧
    jsOrPort none = 8080 ∧
    jsOrPort (some 5000) = 5000 ∧
    defaultPorts (some "flask") = 5000 ∧
    defaultPorts (some "node-express") = 3000 ∧
    defaultPorts (some "spring-boot") = 8080 ∧
    defaultPorts (some "unrecognized") = 8080 := by
  refine ⟨?_, ?_, rfl, rfl, rfl, rfl, rfl, rfl, rfl⟩
  · simp [detectPort, jsFalsyPort, h]
  · intro hft
    have h1 : (detectPort none a).port = some (defaultPorts a.appType) := by
      simp [detectPort, jsFalsyPort, h]
    rw [h1, hft]
    rfl

/-- C4 witness: the amended theorem applied at the concrete Flask analysis
whose port is null. -/
theorem detectPort_table_witness :
    (detectPort none flaskCodeAnalysis).port =
      some (defaultPorts flaskCodeAnalysis.appType) ∧
    (detectPort none flaskCodeAnalysis).port = some 5000 ∧
    (generateDeploymentConfig env0 flaskAnalysisInput
        "abcdef12-3456").appPort =
      jsOrPort flaskAnalysisInput.codeAnalysis.port :=
  have T := detectPort_table_and_assembler_default flaskCodeAnalysis rfl
    env0 flaskAnalysisInput "abcdef12-3456"
  ⟨T.1, T.2.1 rfl, T.2.2.1⟩

set_option maxRecDepth 1000000 in
set_option maxHeartbeats 2000000 in
/-- C5: the generated security group's ingress set opens 22, 80, 443 with
unrestricted egress, but the "Application Port" ingress rule is the fixed
constant 8080 for every configuration — it does NOT use the configured
application port.  For the Flask configuration (appPort 5000) the
generated outputs advertise the application at `:5000` while only 8080 is
opened, so the code contradicts its own outputs. -/
theorem generateMainTerraform_app_ingress_hardcoded :
    (∀ c : TfGenConfig, ∃ pre post,
      generateMainTerraform c = pre ++ (sgWebIngressBlock ++ post)) ∧
    (∀ c : TfGenConfig, ∃ pre post,
      generateMainTerraform c = pre ++ (appPortIngressBlock ++ post)) ∧
    jsIncludes sgWebIngressBlock "from_port   = 22" = true ∧
    jsIncludes sgWebIngressBlock "from_port   = 80" = true ∧
    jsIncludes sgWebIngressBlock "from_port   = 443" = true ∧
    jsIncludes appPortIngressBlock "from_port   = 8080" = true ∧
    jsIncludes appPortIngressBlock "to_port     = 8080" = true ∧
    jsIncludes appPortIngressBlock "cidr_blocks = [\"0.0.0.0/0\"]" = true ∧
    jsIncludes mainTerraformPart3 "protocol    = \"-1\"" = true ∧
    flask5000TfConfig.appPort = some 5000 ∧
    jsIncludes appPortIngressBlock "5000" = false ∧
    jsIncludes (generateOutputsTerraform flask5000TfConfig) ":5000" =
      true := by
  refine ⟨?_, ?_, ?_, ?_, ?_, ?_, ?_, ?_, ?_, rfl, ?_, ?_⟩
  · intro c
    exact ⟨mainResourcesPart c, appPortIngressBlock ++ mainTerraformPart3,
      rfl⟩
  · intro c
    refine ⟨mainResourcesPart c ++ sgWebIngressBlock, mainTerraformPart3,
      ?_⟩
    rw [String.append_assoc]
    rfl
  · decide
  · decide
  · decide
  · decide
  · decide
  · decide
  · decide
  · decide
  · decide
